import Mathlib

/-!
Verification of the edsl repository materials: the poetry packaging manifest
(pyproject.toml), the developer Makefile, and the behaviour documented by the
notebooks under docs/notebooks.  The job-execution engine itself is not part of
the reviewed source tree, so the pipeline objects (Question, Scenario, Model,
Survey, Results) are modelled from the specification and from the inputs and
outputs recorded in the notebooks.
-/

namespace Edsl

/-- The `[tool.poetry.dependencies]` table of pyproject.toml, as (package,
version constraint) pairs, in source order.  The `black` entry is the subtable
`[tool.poetry.dependencies.black]` with version `^24.4.2`. -/
def poetryDependencies : List (String × String) :=
  [("python", ">=3.9.1,<3.13"),
   ("numpy", "^1.22"),
   ("sqlalchemy", "^2.0.23"),
   ("python-dotenv", "^1.0.0"),
   ("openai", "^1.4.0"),
   ("jinja2", "^3.1.2"),
   ("rich", "^13.7.0"),
   ("simpleeval", "^0.9.13"),
   ("jupyter", "^1.0.0"),
   ("pandas", "^2.1.4"),
   ("tenacity", "^8.2.3"),
   ("python-docx", "^1.1.0"),
   ("nest-asyncio", "^1.5.9"),
   ("aiohttp", "^3.9.1"),
   ("markdown2", "^2.4.11"),
   ("pydot", "^2.0.0"),
   ("anthropic", "^0.23.1"),
   ("pygments", "^2.17.2"),
   ("matplotlib", "^3.8.4"),
   ("pymupdf", "^1.24.4"),
   ("restrictedpython", "^7.1"),
   ("black", "^24.4.2")]

/-- The `[tool.poetry.group.dev.dependencies]` table of pyproject.toml. -/
def poetryDevDependencies : List (String × String) :=
  [("coverage", "^7.3.3"),
   ("mypy", "^1.7.1"),
   ("myst-parser", "^3.0.1"),
   ("nbformat", "^5.9.2"),
   ("nbsphinx", "^0.9.3"),
   ("pre-commit", "^3.6.0"),
   ("pydocstyle", "^6.3.0"),
   ("pylint", "^3.1.0"),
   ("pytest", "^7.4.3"),
   ("pytest-asyncio", "^0.23.5"),
   ("pytest-env", "^1.1.3"),
   ("pytest-html", "^4.1.1"),
   ("pytest-mock", "^3.12.0"),
   ("pytest-profiling", "^1.7.0"),
   ("pytest-xdist", "^3.5.0"),
   ("sphinx", "^7.2.6"),
   ("sphinx-copybutton", "^0.5.2"),
   ("sphinx-fontawesome", "^0.0.6"),
   ("sphinx-rtd-theme", "^2.0.0"),
   ("toml", "^0.10.2"),
   ("toml-sort", "^0.23.1")]

/-- Package name declared by `[tool.poetry]` in pyproject.toml. -/
def edslPackageName : String := "edsl"

/-- Package version declared by `[tool.poetry]` in pyproject.toml. -/
def edslPackageVersion : String := "0.1.28.dev1"

/-- The targets of the developer Makefile: each entry is the target name
paired with its recipe lines (leading tabs stripped, line continuations kept
as written). -/
def makefileTargets : List (String × List String) :=
  [("help",
    ["@awk \x27BEGIN \x7bFS = \":.*?## \"\x7d /^[a-zA-Z_-]+:.*?## / \x7bprintf \"  \\033[33m%-25s\\033[0m %s\\n\", $$1, $$2\x7d /^##@/ \x7bprintf \"\\n\\033[0;32m%s\\033[0m\\n\", substr($$0, 4)\x7d \x27 $(MAKEFILE_LIST)"]),
   ("install",
    ["make clean-all",
     "@echo \"Creating a venv from pyproject.toml and installing deps using poetry...\"",
     "poetry install --with dev",
     "@echo \"All deps installed and venv created.\""]),
   ("find",
    ["@find . -type d \\( -name \x27.venv\x27 -o -name \x27__pycache__\x27 \\) -prune -o -type f -print | xargs grep -l \"$(term)\""]),
   ("clean",
    ["@echo \"Cleaning tempfiles...\"",
     "[ ! -f .coverage ] || rm .coverage",
     "[ ! -d .edsl_cache ] || rm  -rf .edsl_cache",
     "[ ! -d .mypy_cache ] || rm -rf .mypy_cache",
     "[ ! -d .temp ] || rm -rf .temp",
     "[ ! -d dist ] || rm -rf dist",
     "[ ! -d htmlcov ] || rm -rf htmlcov",
     "[ ! -d prof ] || rm -rf prof",
     "find . -type d -name \x27.venv\x27 -prune -o -type f -name \x27*.db\x27 -exec rm -rf \x7b\x7d +",
     "find . -type d -name \x27.venv\x27 -prune -o -type f -name \x27*.db.bak\x27 -exec rm -rf \x7b\x7d +",
     "find . -type d -name \x27.venv\x27 -prune -o -type f -name \x27*.log\x27 -exec rm -rf \x7b\x7d +",
     "find . -type d -name \x27.venv\x27 -prune -o -type d -name \x27.pytest_cache\x27 -exec rm -rf \x7b\x7d +",
     "find . -type d -name \x27.venv\x27 -prune -o -type d -name \x27__pycache__\x27 -exec rm -rf \x7b\x7d +"]),
   ("clean-docs",
    ["[ ! -d .temp/docs ] || rm -rf .temp/docs"]),
   ("clean-test",
    ["[ ! -d dist ] || rm -rf dist",
     "[ ! -d htmlcov ] || rm -rf htmlcov",
     "[ ! -d prof ] || rm -rf prof",
     "[ ! -d tests/temp_outputs ] || rm -rf tests/temp_outputs",
     "[ ! -f tests/edsl_cache_test.db ] || rm tests/edsl_cache_test.db",
     "[ ! -f tests/interview.log ] || rm tests/interview.log",
     "[ ! -f tests/test_pytest_report.html ] || rm tests/test_pytest_report.html",
     "@for file in *.html; do \\",
     "[ ! -f \"$$file\" ] || rm \"$$file\"; \\",
     "done",
     "@for file in *.jsonl; do \\",
     "[ ! -f \"$$file\" ] || rm \"$$file\"; \\",
     "done"]),
   ("clean-all",
    ["@if [ -n \"$$VIRTUAL_ENV\" ]; then \\",
     "echo \"Your virtual environment is active. Please deactivate it.\"; \\",
     "exit 1; \\",
     "fi",
     "@echo \"Cleaning tempfiles...\"",
     "@make clean",
     "@echo \"Cleaning testfiles...\"",
     "@make clean-test",
     "@echo \"Cleaning the venv...\"",
     "@[ ! -d .venv ] || rm -rf .venv",
     "@echo \"Done!\""]),
   ("publish",
    ["@version=$$(grep \"^version =\" pyproject.toml | head -1 | sed \x27s/version = \"\\(.*\\)\"/\\1/\x27); \\",
     "echo \"You are about to publish EDSL version \x27$$version\x27 to PyPI.\"",
     "@read -p \"Are you sure you want to continue? (y/n) \" answer; \\",
     "if [ \"$$answer\" != \"y\" ]; then \\",
     "echo \"Publish canceled.\"; \\",
     "exit 1; \\",
     "fi",
     "poetry build",
     "poetry publish"]),
   ("backup",
    ["TIMESTAMP=$$(date +\"%Y%m%d_%H%M%S\"); \\",
     "BACKUP_NAME=$(PROJECT_NAME)_$$\x7bTIMESTAMP\x7d.tar.gz; \\",
     "mkdir -p \"./.backups\"; \\",
     "tar -czf $$\x7bBACKUP_NAME\x7d --exclude=\"*pkl\" --exclude=\"*tar.gz\" --exclude=\"*db\" --exclude=\"*csv\" --exclude=\"./.*\" --exclude=\"node_modules\" --exclude=\"__pycache__\" .;\\",
     "mv $$\x7bBACKUP_NAME\x7d \"./.backups\";\\",
     "echo \"Backup created: $$\x7bBACKUP_NAME\x7d\""]),
   ("bump",
    ["@python scripts/bump_version.py $(filter-out $@,$(MAKECMDGOALS))"]),
   ("docs",
    ["make clean-docs",
     "mkdir -p .temp/docs",
     "poetry export -f requirements.txt --with dev --output .temp/docs/requirements.txt",
     "poetry export -f requirements.txt --with dev --output docs/requirements.txt",
     "sphinx-build -b html docs .temp/docs"]),
   ("docs-view",
    ["@UNAME=\x60uname\x60; if [ \"$$UNAME\" = \"Darwin\" ]; then \\",
     "open .temp/docs/index.html; \\",
     "else \\",
     "firefox .temp/docs/index.html; \\",
     "fi"]),
   ("docstrings",
    ["pydocstyle edsl"]),
   ("format",
    ["pre-commit install",
     "pre-commit run black-jupyter --all-files --all"]),
   ("lint",
    ["mypy edsl"]),
   ("visualize",
    ["python scripts/visualize_structure.py",
     "@UNAME=\x60uname\x60; if [ \"$$UNAME\" = \"Darwin\" ]; then \\",
     "open .temp/visualize_structure/index.html; \\",
     "else \\",
     "firefox .temp/visualize_structure/index.html; \\",
     "fi"]),
   ("test",
    ["make clean-test",
     "pytest -xv tests --nocoop"]),
   ("test-coop",
    ["make clean-test",
     "pytest -xv tests --coop"]),
   ("test-coverage",
    ["make clean-test",
     "poetry run coverage run -m pytest tests --ignore=tests/stress --ignore=tests/coop && poetry run coverage html",
     "@UNAME=\x60uname\x60; if [ \"$$UNAME\" = \"Darwin\" ]; then \\",
     "open htmlcov/index.html; \\",
     "else \\",
     "firefox htmlcov/index.html; \\",
     "fi"]),
   ("test-report",
    ["make clean-test",
     "pytest -xv tests --nocoop --html=tests/test_pytest_report.html",
     "@UNAME=\x60uname\x60; if [ \"$$UNAME\" = \"Darwin\" ]; then \\",
     "open tests/test_pytest_report.html; \\",
     "else \\",
     "firefox tests/test_pytest_report.html; \\",
     "fi"]),
   ("test-data",
    ["python scripts/create_serialization_test_data.py"]),
   ("test-doctests",
    ["make clean-test",
     "pytest --doctest-modules edsl/inference_services",
     "pytest --doctest-modules edsl/results",
     "pytest --doctest-modules edsl/jobs",
     "pytest --doctest-modules edsl/surveys",
     "pytest --doctest-modules edsl/agents",
     "pytest --doctest-modules edsl/scenarios",
     "pytest --doctest-modules edsl/questions",
     "pytest --doctest-modules edsl/utilities",
     "pytest --doctest-modules edsl/language_models",
     "pytest --doctest-modules edsl/data"]),
   ("test-integration",
    ["cd integration/printing && python check_printing.py",
     "pytest -v integration/test_example_notebooks.py",
     "pytest -v integration/test_integration_jobs.py",
     "pytest -v integration/test_memory.py",
     "pytest -v integration/test_models.py",
     "pytest -v integration/test_questions.py",
     "pytest -v integration/test_runners.py"]),
   ("integration-job-running",
    ["pytest -v --log-cli-level=INFO integration/test_job_running.py"]),
   ("integration-tricky-questions",
    ["pytest -v --log-cli-level=INFO integration/test_tricky_questions.py"])]

/-- The value of `Model.available()` recorded in
docs/notebooks/create_models.ipynb (cells 2 and 4): each entry is a model
name, its inference-service provider, and its index.  The implementation of
`Model.available` (edsl/language_models) is not part of the reviewed source;
this list is its output as recorded in the notebook. -/
def modelAvailable : List (String × String × Nat) :=
  [("01-ai/Yi-34B-Chat", "deep_infra", 0),
   ("Austism/chronos-hermes-13b-v2", "deep_infra", 1),
   ("Gryphe/MythoMax-L2-13b", "deep_infra", 2),
   ("HuggingFaceH4/zephyr-orpo-141b-A35b-v0.1", "deep_infra", 3),
   ("Phind/Phind-CodeLlama-34B-v2", "deep_infra", 4),
   ("bigcode/starcoder2-15b", "deep_infra", 5),
   ("claude-3-haiku-20240307", "anthropic", 6),
   ("claude-3-opus-20240229", "anthropic", 7),
   ("claude-3-sonnet-20240229", "anthropic", 8),
   ("codellama/CodeLlama-34b-Instruct-hf", "deep_infra", 9),
   ("codellama/CodeLlama-70b-Instruct-hf", "deep_infra", 10),
   ("cognitivecomputations/dolphin-2.6-mixtral-8x7b", "deep_infra", 11),
   ("databricks/dbrx-instruct", "deep_infra", 12),
   ("deepinfra/airoboros-70b", "deep_infra", 13),
   ("gemini-pro", "google", 14),
   ("google/gemma-1.1-7b-it", "deep_infra", 15),
   ("gpt-3.5-turbo", "openai", 16),
   ("gpt-3.5-turbo-0125", "openai", 17),
   ("gpt-3.5-turbo-0301", "openai", 18),
   ("gpt-3.5-turbo-0613", "openai", 19),
   ("gpt-3.5-turbo-1106", "openai", 20),
   ("gpt-3.5-turbo-16k", "openai", 21),
   ("gpt-3.5-turbo-16k-0613", "openai", 22),
   ("gpt-3.5-turbo-instruct", "openai", 23),
   ("gpt-3.5-turbo-instruct-0914", "openai", 24),
   ("gpt-4", "openai", 25),
   ("gpt-4-0125-preview", "openai", 26),
   ("gpt-4-0613", "openai", 27),
   ("gpt-4-1106-preview", "openai", 28),
   ("gpt-4-1106-vision-preview", "openai", 29),
   ("gpt-4-turbo", "openai", 30),
   ("gpt-4-turbo-2024-04-09", "openai", 31),
   ("gpt-4-turbo-preview", "openai", 32),
   ("gpt-4-vision-preview", "openai", 33),
   ("lizpreciatior/lzlv_70b_fp16_hf", "deep_infra", 34),
   ("llava-hf/llava-1.5-7b-hf", "deep_infra", 35),
   ("meta-llama/Llama-2-13b-chat-hf", "deep_infra", 36),
   ("meta-llama/Llama-2-70b-chat-hf", "deep_infra", 37),
   ("meta-llama/Llama-2-7b-chat-hf", "deep_infra", 38),
   ("meta-llama/Meta-Llama-3-70B-Instruct", "deep_infra", 39),
   ("meta-llama/Meta-Llama-3-8B-Instruct", "deep_infra", 40),
   ("microsoft/WizardLM-2-7B", "deep_infra", 41),
   ("microsoft/WizardLM-2-8x22B", "deep_infra", 42),
   ("mistralai/Mistral-7B-Instruct-v0.1", "deep_infra", 43),
   ("mistralai/Mistral-7B-Instruct-v0.2", "deep_infra", 44),
   ("mistralai/Mixtral-8x22B-Instruct-v0.1", "deep_infra", 45),
   ("mistralai/Mixtral-8x22B-v0.1", "deep_infra", 46),
   ("mistralai/Mixtral-8x7B-Instruct-v0.1", "deep_infra", 47),
   ("openchat/openchat_3.5", "deep_infra", 48)]

end Edsl

namespace Edsl

/-! The pipeline model.  The job-execution engine (edsl/questions,
edsl/scenarios, edsl/language_models, edsl/surveys, edsl/jobs, edsl/results)
is not part of the reviewed source; the definitions below are modelled from
the specification's glossary and from the API calls and outputs recorded in
docs/notebooks/writing_style.ipynb and docs/notebooks/create_models.ipynb. -/

/-- Modelled from the spec: a survey question (the missing edsl/questions
module), with its `question_name` and `question_text` as constructed by
`QuestionFreeText(question_name=..., question_text=...)` in the notebooks. -/
structure Question where
  question_name : String
  question_text : String
  deriving DecidableEq, Repr

/-- Modelled from the spec: "Scenario: a named substitution of variables into
a question template" (the missing edsl/scenarios module); a scenario is the
mapping passed to `Scenario(\x7b"topic": t\x7d)`, here a key-value list. -/
abbrev Scenario := List (String × String)

/-- Modelled from the spec: "Survey: a collection of question definitions"
(the missing edsl/surveys module). -/
abbrev Survey := List Question

/-- Value of a sampling parameter: a number or a boolean flag. -/
inductive ParamValue where
  | num (q : Rat)
  | flag (b : Bool)
  deriving DecidableEq, Repr

/-- Modelled from the spec: "Model: a reference to a specific
large-language-model backend and its sampling parameters" (the missing
edsl/language_models module), with the fields shown by the notebook repr
`Model(model_name = ..., temperature = ..., max_tokens = ..., top_p = ...,
frequency_penalty = ..., presence_penalty = ..., logprobs = ...,
top_logprobs = ...)`. -/
structure Model where
  model_name : String
  temperature : Rat
  max_tokens : Nat
  top_p : Rat
  frequency_penalty : Rat
  presence_penalty : Rat
  logprobs : Bool
  top_logprobs : Nat
  deriving DecidableEq, Repr

/-- The parameters dictionary of a model, in the order printed by the
notebook. -/
def Model.parameters (m : Model) : List (String × ParamValue) :=
  [("temperature", .num m.temperature),
   ("max_tokens", .num m.max_tokens),
   ("top_p", .num m.top_p),
   ("frequency_penalty", .num m.frequency_penalty),
   ("presence_penalty", .num m.presence_penalty),
   ("logprobs", .flag m.logprobs),
   ("top_logprobs", .num m.top_logprobs)]

/-- Modelled from the spec: the default model, produced by `Model()` with the
name omitted, as recorded in create_models.ipynb. -/
def Model.default : Model :=
  ⟨"gpt-4-1106-preview", 0.5, 1000, 1, 0, 0, false, 3⟩

/-- Modelled from the spec: `Model(name)` with all sampling parameters left
at their defaults, as in `Model("gpt-3.5-turbo")`. -/
def Model.ofName (n : String) : Model :=
  ⟨n, 0.5, 1000, 1, 0, 0, false, 3⟩

/-- Modelled from the spec: the full constructor
`Model(name, temperature=..., ...)` with every sampling parameter given. -/
def Model.make (n : String) (t : Rat) (mt : Nat) (tp fp pp : Rat)
    (lg : Bool) (tl : Nat) : Model :=
  ⟨n, t, mt, tp, fp, pp, lg, tl⟩

/-- Replace every occurrence of the pattern `pat` in a character list by
`rep`, scanning left to right without rescanning the replacement. -/
def replaceAll (pat rep : List Char) : List Char → List Char
  | [] => []
  | c :: s =>
    if h : pat ≠ [] ∧ pat.isPrefixOf (c :: s) = true then
      rep ++ replaceAll pat rep ((c :: s).drop pat.length)
    else
      c :: replaceAll pat rep s
  termination_by s => s.length
  decreasing_by
  · simp only [List.length_drop, List.length_cons]
    have hp : 0 < pat.length := List.length_pos.mpr h.1
    omega
  · simp only [List.length_cons]
    omega

/-- Modelled from the spec: rendering a question template against a scenario
(the jinja2 substitution performed by the missing engine when a question is
run): each variable's value replaces its `\x7b\x7b var \x7d\x7d` placeholder. -/
def Scenario.render (s : Scenario) (tmpl : String) : String :=
  s.foldl (fun acc kv =>
    String.mk (replaceAll ("\x7b\x7b " ++ kv.1 ++ " \x7d\x7d").data kv.2.data acc.data)) tmpl

/-- Modelled from the spec: one row of a Results object: the scenario and
model it was produced from, the rendered prompts, and the recorded answers,
both keyed by question name. -/
structure ResultRow where
  scenario : Scenario
  model : Model
  prompts : List (String × String)
  answers : List (String × String)
  deriving DecidableEq, Repr

/-- Modelled from the spec: "Results: the tabular output of running a survey
across scenarios, agents, and models" (the missing edsl/results module). -/
abbrev Results := List ResultRow

/-- Scenarios actually used by a run: when none were attached, a single empty
scenario. -/
def defaultScenarios (ss : List Scenario) : List Scenario :=
  if ss.isEmpty then [[]] else ss

/-- Models actually used by a run: when none were attached, the default
model ("If no model is specified when running a survey, the default model is
used", create_models.ipynb). -/
def defaultModels (ms : List Model) : List Model :=
  if ms.isEmpty then [Model.default] else ms

/-- The result row for one scenario and one model: prompts are the rendered
question texts, answers are the language model's responses to those rendered
prompts (the model backend is abstracted as the oracle `f`). -/
def mkRow (qs : List Question) (s : Scenario) (m : Model)
    (f : Model → String → String) : ResultRow :=
  ⟨s, m,
   qs.map (fun q => (q.question_name, Scenario.render s q.question_text)),
   qs.map (fun q => (q.question_name, f m (Scenario.render s q.question_text)))⟩

/-- Modelled from the spec: executing a job — the Question → Scenario → Model
→ Survey → Results pipeline of the missing edsl/jobs module: one result row
per attached scenario and model, scenarios outermost, in attachment order. -/
def runJob (qs : List Question) (ss : List Scenario) (ms : List Model)
    (f : Model → String → String) : Results :=
  ((defaultScenarios ss).map (fun s =>
    (defaultModels ms).map (fun m => mkRow qs s m f))).flatten

/-- Modelled from the spec: the job object accumulated by the fluent `by`
method before `run` executes it. -/
structure Jobs where
  questions : List Question
  scenarios : List Scenario
  models : List Model
  deriving DecidableEq, Repr

/-- A single question as a job. -/
def Question.toJobs (q : Question) : Jobs := ⟨[q], [], []⟩

/-- A survey as a job. -/
def Survey.toJobs (sv : Survey) : Jobs := ⟨sv, [], []⟩

/-- Modelled from the spec: the fluent `by` method attaching scenarios. -/
def Jobs.byScenarios (j : Jobs) (ss : List Scenario) : Jobs :=
  ⟨j.questions, j.scenarios ++ ss, j.models⟩

/-- Modelled from the spec: the fluent `by` method attaching models. -/
def Jobs.byModels (j : Jobs) (ms : List Model) : Jobs :=
  ⟨j.questions, j.scenarios, j.models ++ ms⟩

/-- Modelled from the spec: `run` executes the accumulated job and returns a
Results object. -/
def Jobs.run (j : Jobs) (f : Model → String → String) : Results :=
  runJob j.questions j.scenarios j.models f

/-- A column key of `Results.select`: `scenario.v`, `model.model`,
`answer.v`, or a bare data key. -/
inductive ColKey where
  | scenarioField (v : String)
  | modelModel
  | answerField (v : String)
  | bare (v : String)
  deriving DecidableEq, Repr

/-- The printed header of a column key. -/
def colName : ColKey → String
  | .scenarioField v => "scenario." ++ v
  | .modelModel => "model.model"
  | .answerField v => "answer." ++ v
  | .bare v => v

/-- Look a key up in a key-value list (empty string when absent). -/
def lookupStr (kvs : List (String × String)) (k : String) : String :=
  match kvs with
  | [] => ""
  | (k2, v) :: rest => if k = k2 then v else lookupStr rest k

/-- Whether a key-value list holds a key. -/
def hasKey (kvs : List (String × String)) (k : String) : Bool :=
  match kvs with
  | [] => false
  | (k2, _) :: rest => if k = k2 then true else hasKey rest k

/-- The value of one column of a result row.  A bare key is resolved against
the scenario first and the answers second, matching the notebook usage
`results.select("topic", "my_style")`. -/
def ResultRow.getCol (r : ResultRow) : ColKey → String
  | .scenarioField v => lookupStr r.scenario v
  | .modelModel => r.model.model_name
  | .answerField v => lookupStr r.answers v
  | .bare v => if hasKey r.scenario v then lookupStr r.scenario v else lookupStr r.answers v

/-- Modelled from the spec: `Results.select(...)` — the tabular view: one
(header, column values) pair per requested key, the values in row order. -/
def Results.selectCols (rs : Results) (ks : List ColKey) : List (String × List String) :=
  ks.map (fun k => (colName k, rs.map (fun r => ResultRow.getCol r k)))

/-- The jinja2 placeholder for the `topic` scenario variable, as the
character list of `\x7b\x7b topic \x7d\x7d`. -/
def topicPlaceholder : List Char := ("\x7b\x7b topic \x7d\x7d").data

/-- Strict lexicographic order on strings, compared character by character on
Unicode codepoints. -/
def strLexLt (s t : String) : Prop :=
  List.Lex (fun c d : Char => c.toNat < d.toNat) s.data t.data

/-- Boolean decision procedure for `strLexLt` on the character data. -/
def lexLtChk : List Char → List Char → Bool
  | _, [] => false
  | [], _ :: _ => true
  | a :: as, b :: bs => Nat.blt a.toNat b.toNat || (a == b && lexLtChk as bs)

/-- Boolean check that a list of model entries is strictly sorted by name. -/
def sortedByNameChk : List (String × String × Nat) → Bool
  | [] => true
  | [_] => true
  | a :: b :: rest => lexLtChk a.1.data b.1.data && sortedByNameChk (b :: rest)

/-- A list is a prefix of itself followed by anything. -/
theorem isPrefixOf_self_append (l r : List Char) : l.isPrefixOf (l ++ r) = true := by
  induction l with
  | nil => simp
  | cons a as ih => simpa using ih

/-- Whether `pat` is a prefix only depends on the first `pat.length`
characters. -/
theorem isPrefixOf_append_eq (pat x y : List Char) (h : pat.length ≤ x.length) :
    pat.isPrefixOf (x ++ y) = pat.isPrefixOf x := by
  induction pat generalizing x with
  | nil => simp
  | cons p pt ih =>
    cases x with
    | nil => simp at h
    | cons a xs =>
      simp only [List.cons_append, List.isPrefixOf_cons₂]
      rw [ih xs (by simpa using h)]

/-- A replacement fires at the head when the text starts with the pattern. -/
theorem replaceAll_leadMatch (pat rep rest : List Char) (hp : pat ≠ []) :
    replaceAll pat rep (pat ++ rest) = rep ++ replaceAll pat rep rest := by
  cases pat with
  | nil => exact absurd rfl hp
  | cons p pt =>
    have hpre : (p :: pt).isPrefixOf ((p :: pt) ++ rest) = true :=
      isPrefixOf_self_append _ _
    rw [List.cons_append]
    simp only [replaceAll]
    rw [dif_pos ⟨List.cons_ne_nil p pt, hpre⟩]
    rw [show p :: (pt ++ rest) = (p :: pt) ++ rest from rfl, List.drop_left]

/-- No replacement fires at a position where the pattern does not match. -/
theorem replaceAll_skip (pat rep : List Char) (c : Char) (s : List Char)
    (h : pat.isPrefixOf (c :: s) = false) :
    replaceAll pat rep (c :: s) = c :: replaceAll pat rep s := by
  simp only [replaceAll]
  rw [dif_neg]
  intro hc
  rw [h] at hc
  exact Bool.false_ne_true hc.2

/-- Replacement on text of the form `pre ++ pat ++ rest` when the pattern
matches nowhere inside `pre` (nor straddling into `pat`): the `pre` part is
copied, the pattern is replaced, and scanning continues on `rest`. -/
theorem replaceAll_append_pat (pat rep pre rest : List Char) (hp : pat ≠ [])
    (hpre : ∀ i < pre.length, pat.isPrefixOf ((pre ++ pat).drop i) = false) :
    replaceAll pat rep (pre ++ (pat ++ rest)) = pre ++ (rep ++ replaceAll pat rep rest) := by
  induction pre with
  | nil => simpa using replaceAll_leadMatch pat rep rest hp
  | cons c pr ih =>
    have h0 : pat.isPrefixOf ((c :: pr) ++ pat) = false := by
      simpa using hpre 0 (by simp)
    have hlen : pat.length ≤ ((c :: pr) ++ pat).length := by
      simp only [List.length_append, List.length_cons]
      omega
    have heq : ((c :: pr) ++ pat) ++ rest = c :: (pr ++ (pat ++ rest)) := by
      simp [List.append_assoc]
    have h0' : pat.isPrefixOf (c :: (pr ++ (pat ++ rest))) = false := by
      rw [← heq, isPrefixOf_append_eq _ _ _ hlen]
      exact h0
    rw [List.cons_append, replaceAll_skip pat rep c _ h0',
      ih (fun i hi => hpre (i + 1) (by simp only [List.length_cons]; omega))]
    rfl

/-- Replacement is the identity on text where the pattern never matches. -/
theorem replaceAll_of_free (pat rep s : List Char)
    (h : ∀ i < s.length, pat.isPrefixOf (s.drop i) = false) :
    replaceAll pat rep s = s := by
  induction s with
  | nil => simp [replaceAll]
  | cons c cs ih =>
    have h0 : pat.isPrefixOf (c :: cs) = false := by simpa using h 0 (by simp)
    rw [replaceAll_skip pat rep c cs h0,
      ih (fun i hi => h (i + 1) (by simp only [List.length_cons]; omega))]

/-- Flattening a list of singletons is a plain map. -/
theorem flatten_map_singleton {α β : Type} (l : List α) (g : α → β) :
    (l.map (fun x => [g x])).flatten = l.map g := by
  induction l with
  | nil => rfl
  | cons a t ih => simpa using ih

/-- With no scenario attached, a run uses the single empty scenario. -/
theorem runJob_no_scenarios (qs : List Question) (ms : List Model)
    (f : Model → String → String) :
    runJob qs [] ms f = (defaultModels ms).map (fun m => mkRow qs [] m f) := by
  show (defaultModels ms).map (fun m => mkRow qs [] m f) ++ [] = _
  exact List.append_nil _

/-- With no model attached, a run uses the default model for every
scenario. -/
theorem runJob_no_models (qs : List Question) (ss : List Scenario)
    (f : Model → String → String) :
    runJob qs ss [] f = (defaultScenarios ss).map (fun s => mkRow qs s Model.default f) := by
  show ((defaultScenarios ss).map (fun s => [mkRow qs s Model.default f])).flatten = _
  exact flatten_map_singleton _ _

/-- Attached scenarios are used as given when there is at least one. -/
theorem defaultScenarios_of_ne (ss : List Scenario) (h : ss ≠ []) :
    defaultScenarios ss = ss := by
  cases ss with
  | nil => exact absurd rfl h
  | cons a l => rfl

/-- Attached models are used as given when there is at least one. -/
theorem defaultModels_of_ne (ms : List Model) (h : ms ≠ []) :
    defaultModels ms = ms := by
  cases ms with
  | nil => exact absurd rfl h
  | cons a l => rfl

/-- Claim C4: the packaging manifest declares each of aiohttp, tenacity,
sqlalchemy, simpleeval, restrictedpython and jinja2 as dependencies of the
edsl package. -/
theorem manifest_declares_core_dependencies :
    "aiohttp" ∈ poetryDependencies.map Prod.fst ∧
    "tenacity" ∈ poetryDependencies.map Prod.fst ∧
    "sqlalchemy" ∈ poetryDependencies.map Prod.fst ∧
    "simpleeval" ∈ poetryDependencies.map Prod.fst ∧
    "restrictedpython" ∈ poetryDependencies.map Prod.fst ∧
    "jinja2" ∈ poetryDependencies.map Prod.fst := by
  decide

/-- Claim C6: the list returned by `Model.available()` contains entries for
the providers openai, anthropic, google and deep_infra. -/
theorem available_models_span_providers :
    (∃ e ∈ modelAvailable, e.2.1 = "openai") ∧
    (∃ e ∈ modelAvailable, e.2.1 = "anthropic") ∧
    (∃ e ∈ modelAvailable, e.2.1 = "google") ∧
    (∃ e ∈ modelAvailable, e.2.1 = "deep_infra") := by
  refine ⟨⟨("gpt-3.5-turbo", "openai", 16), by decide, rfl⟩,
         ⟨("claude-3-haiku-20240307", "anthropic", 6), by decide, rfl⟩,
         ⟨("gemini-pro", "google", 14), by decide, rfl⟩,
         ⟨("01-ai/Yi-34B-Chat", "deep_infra", 0), by decide, rfl⟩⟩

/-- Claim C7: the Makefile provides a `test` target running pytest over
tests, a `docs` target building HTML documentation with sphinx-build, and a
`publish` target building and publishing the package to PyPI. -/
theorem makefile_test_docs_publish_targets :
    (∃ t ∈ makefileTargets, t.1 = "test" ∧ "pytest -xv tests --nocoop" ∈ t.2) ∧
    (∃ t ∈ makefileTargets, t.1 = "docs" ∧ "sphinx-build -b html docs .temp/docs" ∈ t.2) ∧
    (∃ t ∈ makefileTargets, t.1 = "publish" ∧ "poetry build" ∈ t.2 ∧ "poetry publish" ∈ t.2) := by
  refine ⟨⟨("test", ["make clean-test", "pytest -xv tests --nocoop"]), by decide, rfl, by decide⟩,
         ⟨("docs",
           ["make clean-docs",
            "mkdir -p .temp/docs",
            "poetry export -f requirements.txt --with dev --output .temp/docs/requirements.txt",
            "poetry export -f requirements.txt --with dev --output docs/requirements.txt",
            "sphinx-build -b html docs .temp/docs"]), by decide, rfl, by decide⟩,
         ⟨("publish",
           ["@version=$$(grep \"^version =\" pyproject.toml | head -1 | sed \x27s/version = \"\\(.*\\)\"/\\1/\x27); \\",
            "echo \"You are about to publish EDSL version \x27$$version\x27 to PyPI.\"",
            "@read -p \"Are you sure you want to continue? (y/n) \" answer; \\",
            "if [ \"$$answer\" != \"y\" ]; then \\",
            "echo \"Publish canceled.\"; \\",
            "exit 1; \\",
            "fi",
            "poetry build",
            "poetry publish"]), by decide, rfl, by decide, by decide⟩⟩

/-- A successful `lexLtChk` yields the lexicographic order. -/
theorem lexLtChk_lex : ∀ x y : List Char, lexLtChk x y = true →
    List.Lex (fun c d : Char => c.toNat < d.toNat) x y := by
  intro x
  induction x with
  | nil =>
    intro y h
    cases y with
    | nil => simp [lexLtChk] at h
    | cons b bs => exact List.Lex.nil
  | cons a as ih =>
    intro y h
    cases y with
    | nil => simp [lexLtChk] at h
    | cons b bs =>
      simp only [lexLtChk, Bool.or_eq_true, Bool.and_eq_true] at h
      rcases h with h | ⟨hab, hrest⟩
      · exact List.Lex.rel (Nat.blt_eq ▸ h)
      · cases eq_of_beq hab
        exact List.Lex.cons (ih bs hrest)

/-- A successful `sortedByNameChk` yields the corresponding `Chain'`. -/
theorem sortedByNameChk_chain' (l : List (String × String × Nat))
    (h : sortedByNameChk l = true) :
    List.Chain' (fun a b : String × String × Nat => strLexLt a.1 b.1) l := by
  induction l with
  | nil => simp
  | cons a t ih =>
    cases t with
    | nil => simp
    | cons b t2 =>
      rw [List.chain'_cons]
      simp only [sortedByNameChk, Bool.and_eq_true] at h
      exact ⟨lexLtChk_lex _ _ h.1, ih h.2⟩

/-- Claim C8: the recorded `Model.available()` list is sorted
lexicographically by model name, and the third component of each entry is its
0-based position, so the indices are exactly 0 through n-1. -/
theorem available_models_sorted_and_indexed :
    List.Chain' (fun a b : String × String × Nat => strLexLt a.1 b.1) modelAvailable ∧
    modelAvailable.map (fun e => e.2.2) = List.range modelAvailable.length := by
  constructor
  · exact sortedByNameChk_chain' modelAvailable (by decide)
  · rfl

/-- Claim C5: a Model is a model name together with the sampling parameter
set temperature, max_tokens, top_p, frequency_penalty, presence_penalty,
logprobs and top_logprobs; it can be created from a name with explicit
parameters, or with the name omitted. -/
theorem model_carries_parameters (n : String) (t tp fp pp : Rat)
    (mt tl : Nat) (lg : Bool) :
    (∀ m : Model, m.parameters.map Prod.fst =
      ["temperature", "max_tokens", "top_p", "frequency_penalty",
       "presence_penalty", "logprobs", "top_logprobs"]) ∧
    Model.make n t mt tp fp pp lg tl =
      ⟨n, t, mt, tp, fp, pp, lg, tl⟩ ∧
    (Model.ofName n).model_name = n ∧
    (Model.ofName n).parameters = Model.default.parameters ∧
    Model.default.model_name = "gpt-4-1106-preview" :=
  ⟨fun _ => rfl, rfl, rfl, rfl, rfl⟩

/-- Claim C9: the default model (`Model()` with the name omitted) is
gpt-4-1106-preview with temperature 0.5, max_tokens 1000, top_p 1,
frequency_penalty 0, presence_penalty 0, logprobs false and top_logprobs 3,
and every row of a run with no model attached uses it. -/
theorem default_model_spec (qs : List Question) (ss : List Scenario)
    (f : Model → String → String) :
    Model.default.model_name = "gpt-4-1106-preview" ∧
    Model.default.parameters =
      [("temperature", ParamValue.num 0.5),
       ("max_tokens", ParamValue.num 1000),
       ("top_p", ParamValue.num 1),
       ("frequency_penalty", ParamValue.num 0),
       ("presence_penalty", ParamValue.num 0),
       ("logprobs", ParamValue.flag false),
       ("top_logprobs", ParamValue.num 3)] ∧
    ∀ r ∈ runJob qs ss [] f, r.model = Model.default := by
  refine ⟨rfl, rfl, ?_⟩
  intro r hr
  rw [runJob_no_models] at hr
  obtain ⟨s, _, rfl⟩ := List.mem_map.mp hr
  rfl

/-- Looking a question's name up in the answers list built over a survey
with duplicate-free question names returns that question's entry. -/
theorem lookupStr_map_of_nodup {α : Type} (l : List α) (nm : α → String)
    (g : α → String) (hnd : (l.map nm).Nodup) (a : α) (ha : a ∈ l) :
    lookupStr (l.map (fun x => (nm x, g x))) (nm a) = g a := by
  induction l with
  | nil => cases ha
  | cons b rest ih =>
    simp only [List.map_cons, lookupStr]
    rcases List.mem_cons.mp ha with rfl | hmem
    · rw [if_pos rfl]
    · have hne : nm a ≠ nm b := by
        intro he
        have hb : nm b ∉ rest.map nm := (List.nodup_cons.mp hnd).1
        exact hb (he ▸ List.mem_map_of_mem nm hmem)
      rw [if_neg hne]
      exact ih (List.nodup_cons.mp hnd).2 hmem

/-- Claim C1: composing a survey (or a single question) with scenarios and
models through the fluent `by` method and executing with `run` yields a
Results object whose selected `answer.<question_name>` column records, in
pipeline order (scenarios outermost, the defaults substituted when either
attachment is missing), the model's answer to that question's rendered
prompt — for any question of a survey with duplicate-free question names,
and for the single-question job unconditionally. -/
theorem pipeline_run_selects_answers (sv : Survey) (ss : List Scenario)
    (ms : List Model) (f : Model → String → String) (q : Question)
    (hq : q ∈ sv) (hnames : (sv.map (fun q2 => q2.question_name)).Nodup) :
    (Results.selectCols
        (Jobs.run (Jobs.byModels (Jobs.byScenarios (Survey.toJobs sv) ss) ms) f)
        [ColKey.answerField q.question_name] =
      [("answer." ++ q.question_name,
        ((defaultScenarios ss).map (fun s =>
          (defaultModels ms).map (fun m =>
            f m (Scenario.render s q.question_text)))).flatten)]) ∧
    (Results.selectCols
        (Jobs.run (Jobs.byModels (Jobs.byScenarios (Question.toJobs q) ss) ms) f)
        [ColKey.answerField q.question_name] =
      [("answer." ++ q.question_name,
        ((defaultScenarios ss).map (fun s =>
          (defaultModels ms).map (fun m =>
            f m (Scenario.render s q.question_text)))).flatten)]) := by
  have hcol : ∀ (s : Scenario) (m : Model),
      ResultRow.getCol (mkRow sv s m f) (ColKey.answerField q.question_name)
        = f m (Scenario.render s q.question_text) := by
    intro s m
    show lookupStr (sv.map (fun q2 =>
      (q2.question_name, f m (Scenario.render s q2.question_text)))) q.question_name = _
    exact lookupStr_map_of_nodup sv (fun q2 => q2.question_name)
      (fun q2 => f m (Scenario.render s q2.question_text)) hnames q hq
  have hcolmap : ∀ (ss2 : List Scenario) (ms2 : List Model),
      ((ss2.map (fun s => ms2.map (fun m => mkRow sv s m f))).flatten).map
        (fun r => ResultRow.getCol r (ColKey.answerField q.question_name))
      = (ss2.map (fun s => ms2.map (fun m =>
          f m (Scenario.render s q.question_text)))).flatten := by
    intro ss2 ms2
    rw [List.map_flatten, List.map_map]
    refine congrArg List.flatten (List.map_congr_left ?_)
    intro s _
    show (ms2.map (fun m => mkRow sv s m f)).map
      (fun r => ResultRow.getCol r (ColKey.answerField q.question_name)) = _
    rw [List.map_map]
    exact List.map_congr_left (fun m _ => hcol s m)
  constructor
  · exact congrArg (fun c => [("answer." ++ q.question_name, c)])
      (hcolmap (defaultScenarios ss) (defaultModels ms))
  · simp only [Jobs.run, Jobs.byModels, Jobs.byScenarios, Question.toJobs,
      List.nil_append, runJob, Results.selectCols, List.map_cons, List.map_nil,
      colName, List.map_flatten, List.map_map]
    simp [Function.comp_def, ResultRow.getCol, mkRow, lookupStr]

/-- Concrete run of the C1 pipeline theorem: the create_models notebook's
survey-over-models pattern, on a two-question survey with two models,
selecting the answer column of q0. -/
theorem pipeline_run_selects_answers_witness :
    (Results.selectCols
        (Jobs.run (Jobs.byModels (Jobs.byScenarios
          (Survey.toJobs [⟨"q0", "Do you like school?"⟩, ⟨"q1", "Why or why not?"⟩]) [])
          [Model.ofName "gemini-pro", Model.ofName "gpt-4-1106-preview"])
          (fun _ _ => "yes"))
        [ColKey.answerField "q0"] =
      [("answer." ++ "q0",
        ((defaultScenarios []).map (fun s =>
          (defaultModels [Model.ofName "gemini-pro", Model.ofName "gpt-4-1106-preview"]).map
            (fun m => (fun _ _ => "yes" : Model → String → String) m
              (Scenario.render s "Do you like school?")))).flatten)]) ∧
    (Results.selectCols
        (Jobs.run (Jobs.byModels (Jobs.byScenarios
          (Question.toJobs ⟨"q0", "Do you like school?"⟩) [])
          [Model.ofName "gemini-pro", Model.ofName "gpt-4-1106-preview"])
          (fun _ _ => "yes"))
        [ColKey.answerField "q0"] =
      [("answer." ++ "q0",
        ((defaultScenarios []).map (fun s =>
          (defaultModels [Model.ofName "gemini-pro", Model.ofName "gpt-4-1106-preview"]).map
            (fun m => (fun _ _ => "yes" : Model → String → String) m
              (Scenario.render s "Do you like school?")))).flatten)]) :=
  pipeline_run_selects_answers
    [⟨"q0", "Do you like school?"⟩, ⟨"q1", "Why or why not?"⟩] []
    [Model.ofName "gemini-pro", Model.ofName "gpt-4-1106-preview"]
    (fun _ _ => "yes") ⟨"q0", "Do you like school?"⟩
    (by simp) (by simp)

/-- Claim C2: running a question whose text contains the `\x7b\x7b topic \x7d\x7d`
placeholder (text = pre ++ placeholder ++ post, with no other match of the
placeholder inside pre, straddling into it, or inside post) against the
scenario `\x7b"topic": t\x7d` renders the prompt with `t` substituted for the
placeholder, and `t` appears under the column `scenario.topic`. -/
theorem scenario_substitution (t pre post n : String) (f : Model → String → String)
    (hpre : ∀ i < pre.data.length,
      topicPlaceholder.isPrefixOf ((pre.data ++ topicPlaceholder).drop i) = false)
    (hpost : ∀ i < post.data.length,
      topicPlaceholder.isPrefixOf (post.data.drop i) = false) :
    ((Jobs.run (Jobs.byScenarios (Question.toJobs
        ⟨n, pre ++ "\x7b\x7b topic \x7d\x7d" ++ post⟩) [[("topic", t)]]) f).map
      (fun r => r.prompts)) = [[(n, pre ++ t ++ post)]] ∧
    Results.selectCols (Jobs.run (Jobs.byScenarios (Question.toJobs
        ⟨n, pre ++ "\x7b\x7b topic \x7d\x7d" ++ post⟩) [[("topic", t)]]) f)
        [ColKey.scenarioField "topic"] = [("scenario.topic", [t])] := by
  have hq : Jobs.run (Jobs.byScenarios (Question.toJobs
        ⟨n, pre ++ "\x7b\x7b topic \x7d\x7d" ++ post⟩) [[("topic", t)]]) f
      = [mkRow [⟨n, pre ++ "\x7b\x7b topic \x7d\x7d" ++ post⟩]
          [("topic", t)] Model.default f] := by
    show runJob _ ([] ++ [[("topic", t)]]) [] f = _
    rw [List.nil_append, runJob_no_models]
    rfl
  have hdata : (pre ++ "\x7b\x7b topic \x7d\x7d" ++ post).data
      = pre.data ++ (topicPlaceholder ++ post.data) := by
    simp [topicPlaceholder]
  have hrender : Scenario.render [("topic", t)]
      (pre ++ "\x7b\x7b topic \x7d\x7d" ++ post) = pre ++ t ++ post := by
    show String.mk (replaceAll ("\x7b\x7b " ++ "topic" ++ " \x7d\x7d").data t.data
      (pre ++ "\x7b\x7b topic \x7d\x7d" ++ post).data) = pre ++ t ++ post
    rw [show ("\x7b\x7b " ++ "topic" ++ " \x7d\x7d").data = topicPlaceholder from rfl,
      hdata,
      replaceAll_append_pat topicPlaceholder t.data pre.data post.data
        (by decide) hpre,
      replaceAll_of_free topicPlaceholder t.data post.data hpost,
      ← List.append_assoc, ← String.data_append, ← String.data_append]
  constructor
  · rw [hq]
    simp only [List.map_cons, List.map_nil, mkRow]
    rw [hrender]
  · rw [hq]
    simp [Results.selectCols, ResultRow.getCol, mkRow, colName, lookupStr]

/-- Concrete run of the C2 substitution theorem on the writing_style
notebook's topic scenario. -/
theorem scenario_substitution_witness :
    ((Jobs.run (Jobs.byScenarios (Question.toJobs
        ⟨"my_style", "Draft a paragraph about " ++ "\x7b\x7b topic \x7d\x7d" ++ " in my style."⟩)
        [[("topic", "parrots")]]) (fun _ _ => "Arrr")).map
      (fun r => r.prompts))
      = [[("my_style", "Draft a paragraph about " ++ "parrots" ++ " in my style.")]] ∧
    Results.selectCols (Jobs.run (Jobs.byScenarios (Question.toJobs
        ⟨"my_style", "Draft a paragraph about " ++ "\x7b\x7b topic \x7d\x7d" ++ " in my style."⟩)
        [[("topic", "parrots")]]) (fun _ _ => "Arrr"))
        [ColKey.scenarioField "topic"] = [("scenario.topic", ["parrots"])] :=
  scenario_substitution "parrots" "Draft a paragraph about " " in my style."
    "my_style" (fun _ _ => "Arrr") (by decide) (by decide)

/-- Claim C3: running a survey over a non-empty model list gives one row per
model, in order: the model.model column lists the model names in input
order, each row holds that model's answers, and for a duplicate-free model
list every model appears in exactly one row. -/
theorem one_row_per_model (sv : Survey) (ms : List Model)
    (f : Model → String → String) (hms : ms ≠ []) :
    (Jobs.run (Jobs.byModels (Survey.toJobs sv) ms) f).length = ms.length ∧
    Results.selectCols (Jobs.run (Jobs.byModels (Survey.toJobs sv) ms) f)
        [ColKey.modelModel]
      = [("model.model", ms.map (fun m => m.model_name))] ∧
    (Jobs.run (Jobs.byModels (Survey.toJobs sv) ms) f).map (fun r => r.answers)
      = ms.map (fun m => sv.map (fun q =>
          (q.question_name, f m (Scenario.render [] q.question_text)))) ∧
    (ms.Nodup → ∀ m ∈ ms,
      ((Jobs.run (Jobs.byModels (Survey.toJobs sv) ms) f).filter
        (fun r => r.model == m)).length = 1) := by
  have hrun : Jobs.run (Jobs.byModels (Survey.toJobs sv) ms) f
      = ms.map (fun m => mkRow sv [] m f) := by
    show runJob sv [] ([] ++ ms) f = _
    rw [List.nil_append, runJob_no_scenarios, defaultModels_of_ne ms hms]
  refine ⟨by rw [hrun, List.length_map], ?_, ?_, ?_⟩
  · rw [hrun]
    simp [Results.selectCols, ResultRow.getCol, mkRow, colName]
  · rw [hrun]
    simp [mkRow]
  · intro hnd m hm
    rw [hrun, ← List.countP_eq_length_filter, List.countP_map]
    show ms.count m = 1
    exact List.count_eq_one_of_mem hnd hm

/-- Concrete run of the C3 theorem on the create_models notebook's two-model
survey. -/
theorem one_row_per_model_witness :
    (Jobs.run (Jobs.byModels (Survey.toJobs [⟨"q0", "Do you like school?"⟩])
      [Model.ofName "gemini-pro", Model.ofName "gpt-4-1106-preview"])
      (fun _ _ => "yes")).length = 2 ∧
    Results.selectCols (Jobs.run (Jobs.byModels
        (Survey.toJobs [⟨"q0", "Do you like school?"⟩])
        [Model.ofName "gemini-pro", Model.ofName "gpt-4-1106-preview"])
        (fun _ _ => "yes")) [ColKey.modelModel]
      = [("model.model", ["gemini-pro", "gpt-4-1106-preview"])] := by
  have h := one_row_per_model [⟨"q0", "Do you like school?"⟩]
    [Model.ofName "gemini-pro", Model.ofName "gpt-4-1106-preview"]
    (fun _ _ => "yes") (List.cons_ne_nil _ _)
  exact ⟨h.1, h.2.1⟩

/-- Claim C10: running a question over a non-empty scenario list yields one
row per scenario, the rows carrying the scenarios in input order, and any
selected scenario column lists the values in that same order. -/
theorem scenario_order_preserved (q : Question) (ss : List Scenario)
    (f : Model → String → String) (hss : ss ≠ []) :
    (Jobs.run (Jobs.byScenarios (Question.toJobs q) ss) f).length = ss.length ∧
    (Jobs.run (Jobs.byScenarios (Question.toJobs q) ss) f).map
      (fun r => r.scenario) = ss ∧
    ∀ v : String, Results.selectCols
        (Jobs.run (Jobs.byScenarios (Question.toJobs q) ss) f)
        [ColKey.scenarioField v]
      = [("scenario." ++ v, ss.map (fun s => lookupStr s v))] := by
  have hrun : Jobs.run (Jobs.byScenarios (Question.toJobs q) ss) f
      = ss.map (fun s => mkRow [q] s Model.default f) := by
    show runJob [q] ([] ++ ss) [] f = _
    rw [List.nil_append, runJob_no_models, defaultScenarios_of_ne ss hss]
  refine ⟨by rw [hrun, List.length_map], ?_, ?_⟩
  · rw [hrun]
    simp [mkRow, Function.comp_def]
  · intro v
    rw [hrun]
    simp [Results.selectCols, ResultRow.getCol, mkRow, colName]

/-- Concrete run of the C10 theorem on the writing_style notebook's three
topic scenarios. -/
theorem scenario_order_preserved_witness :
    (Jobs.run (Jobs.byScenarios (Question.toJobs
        ⟨"my_style", "Draft a paragraph about \x7b\x7b topic \x7d\x7d in my style."⟩)
        [[("topic", "parrots")], [("topic", "holiday weekends")],
         [("topic", "fun with language models")]]) (fun _ _ => "Arrr")).length = 3 ∧
    (Jobs.run (Jobs.byScenarios (Question.toJobs
        ⟨"my_style", "Draft a paragraph about \x7b\x7b topic \x7d\x7d in my style."⟩)
        [[("topic", "parrots")], [("topic", "holiday weekends")],
         [("topic", "fun with language models")]]) (fun _ _ => "Arrr")).map
      (fun r => r.scenario)
      = [[("topic", "parrots")], [("topic", "holiday weekends")],
         [("topic", "fun with language models")]] ∧
    Results.selectCols (Jobs.run (Jobs.byScenarios (Question.toJobs
        ⟨"my_style", "Draft a paragraph about \x7b\x7b topic \x7d\x7d in my style."⟩)
        [[("topic", "parrots")], [("topic", "holiday weekends")],
         [("topic", "fun with language models")]]) (fun _ _ => "Arrr"))
        [ColKey.scenarioField "topic"]
      = [("scenario.topic",
          ["parrots", "holiday weekends", "fun with language models"])] := by
  have h := scenario_order_preserved
    ⟨"my_style", "Draft a paragraph about \x7b\x7b topic \x7d\x7d in my style."⟩
    [[("topic", "parrots")], [("topic", "holiday weekends")],
     [("topic", "fun with language models")]] (fun _ _ => "Arrr")
    (List.cons_ne_nil _ _)
  exact ⟨h.1, h.2.1, h.2.2 "topic"⟩

end Edsl
